import Mathlib

/-!
Shallow embedding of the j26-notifications service (FastAPI + Postgres, jsonb
row tables).  Tables are modelled as lists of typed rows in insertion order;
`db_fetchrow "WHERE id=$1"` is `List.find?`, filtering `WHERE`-clauses are
`List.filter`, and `INSERT` appends.  Firebase pushes are captured as an output
list of `Push` values instead of performing network effects.  HTTP failures
raised via `HTTPException` become an `Except HErr` result; every endpoint
raises before it performs any write, which the embedding mirrors by returning
the unchanged database together with the error.
-/

namespace J26

/-- `@dataclass Channel` of `channels.py` (one jsonb row of the `channels`
table). -/
structure Channel where
  id : String
  name : String
  tenant_id : String
  description : Option String := none
  is_open : Bool := true
  is_private : Bool := false
  parent_id : Option String := none
  updated_at : String := ""
  updated_by : Option String := none
deriving Repr, DecidableEq

/-- `@dataclass Tokens` of `subscriptions.py`: the device-token record of one
`(user, tenant)` key, stored under primary key `"{user}:{tenant}"`. -/
structure Tokens where
  id : String
  tenant_id : String
  device_tokens : List String
  updated_at : String
deriving Repr, DecidableEq

/-- `@dataclass Subscription` of `subscriptions.py`, stored under primary key
`"{user}@{channel}:{tenant}"`. -/
structure Subscription where
  id : String
  tenant_id : String
  channel_id : String
  user_id : String
  created_at : String
deriving Repr, DecidableEq

/-- `@dataclass Notification` of `notifications.py` (one row of the
`notifications` table). -/
structure Notification where
  tenant_id : String
  channel_id : String
  title : String
  body : String
  sent_by : String
  id : String
  sent_at : String
deriving Repr, DecidableEq

/-- The four row tables plus the `tenants` table (of which only the ids matter
to the endpoints: `get_tenant_id` merely checks existence). -/
structure DB where
  tenants : List String := []
  channels : List Channel := []
  tokens : List Tokens := []
  subscriptions : List Subscription := []
  notifications : List Notification := []
deriving Repr, DecidableEq

/-- One `firebase_send` invocation: the delivery-token batch and the message.
`firebase.py` returns immediately on an empty token list, so an invocation
with `tokens = []` is never recorded. -/
structure Push where
  tokens : List String
  msg : Notification
deriving Repr, DecidableEq

/-- The `HTTPException` status codes the embedded endpoints raise. -/
inductive HErr where
  | badRequest
  | forbidden
  | notFound
  | conflict
  | preconditionRequired
deriving Repr, DecidableEq

instance {ε α : Type _} [DecidableEq ε] [DecidableEq α] :
    DecidableEq (Except ε α) := fun x y =>
  match x, y with
  | .error e, .error f =>
    if h : e = f then isTrue (h ▸ rfl)
    else isFalse (fun hh => h (Except.error.inj hh))
  | .error _, .ok _ => isFalse (fun hh => Except.noConfusion hh)
  | .ok _, .error _ => isFalse (fun hh => Except.noConfusion hh)
  | .ok a, .ok b =>
    if h : a = b then isTrue (h ▸ rfl)
    else isFalse (fun hh => h (Except.ok.inj hh))

/-- `firebase_send` of `firebase.py`: no-op on an empty token list, otherwise
one multicast push. -/
def firebase_send (tokens : List String) (msg : Notification) : List Push :=
  if tokens.isEmpty then [] else [⟨tokens, msg⟩]

/-- `is_tenant_admin` of `tenants.py`: the source returns `True`
unconditionally. -/
def is_tenant_admin (_tenant _user : String) : Bool := true

/-- `get_tenant_id` dependency of `tenants.py`: 404 unless the tenant id is a
row of the `tenants` table. -/
def tenant_exists (db : DB) (tenant : String) : Bool :=
  db.tenants.contains tenant

/-- `get_channel_id` dependency of `channels.py`: 404 unless the channel id is
a row of the `channels` table (the lookup is by id only, not tenant-scoped). -/
def channel_exists (db : DB) (channel : String) : Bool :=
  (db.channels.find? (fun c => c.id = channel)).isSome

/-- `get_subscription_tokens` of `subscriptions.py`: all subscription rows of
`(tenant, channel)`, then the concatenation of the `device_tokens` of every
token row whose id is among `"{user_id}:{tenant}"` of those subscribers. -/
def get_subscription_tokens (tenant channel : String) (db : DB) : List String :=
  let rows := db.subscriptions.filter
    (fun s => s.tenant_id = tenant ∧ s.channel_id = channel)
  if rows.isEmpty then []
  else
    let user_id_list := rows.map (fun s => s.user_id ++ ":" ++ tenant)
    let trows := db.tokens.filter (fun t => t.id ∈ user_id_list)
    trows.flatMap (fun t => t.device_tokens)

/-- `get_user_tokens` of `subscriptions.py`: the `device_tokens` of the row
with id `"{user_id}:{tenant}"`, or `[]` when absent. -/
def get_user_tokens (tenant user_id : String) (db : DB) : List String :=
  match db.tokens.find? (fun t => t.id = user_id ++ ":" ++ tenant) with
  | some row => row.device_tokens
  | none => []

/-- `send_notification` of `notifications.py`: resolve the channel's tokens;
if any, push, and — only then — insert the notification row when `save`. -/
def send_notification (tenant channel : String) (msg : Notification)
    (save : Bool) (db : DB) : DB × List Push :=
  let msg_tokens := get_subscription_tokens tenant channel db
  if msg_tokens.isEmpty then (db, [])
  else
    let pushes := firebase_send msg_tokens msg
    let db' := if save then
        { db with notifications := db.notifications ++ [msg] }
      else db
    (db', pushes)

/-- The `NotificationCreate` request body (`notifications.py`). -/
structure NotificationCreate where
  channel_ids : List String := []
  include_child_channels : Bool := true
  title : String
  body : String
deriving Repr, DecidableEq

/-- The `DirectNotificationCreate` request body (`notifications.py`). -/
structure DirectNotificationCreate where
  user_id : String
  title : String
  body : String
deriving Repr, DecidableEq

/-- The `ChannelCreate` request body (`channels.py`). -/
structure ChannelCreate where
  id : String
  name : String
  description : Option String := none
  is_open : Bool := true
  is_private : Bool := false
  parent_id : Option String := none
deriving Repr, DecidableEq

/-- The pydantic pattern `^[a-z0-9._-]+$` that validates `ChannelCreate.id`
before the endpoint body runs. -/
def validChannelId (s : String) : Bool :=
  s ≠ "" && s.data.all (fun c =>
    (('a' ≤ c && c ≤ 'z') || ('0' ≤ c && c ≤ '9') || c = '.' || c = '_' || c = '-'))

/-- Lexicographic `≤` on code-point lists: the order Postgres applies when
it sorts the `sent_at` text column (byte order on the ASCII timestamp
texts the service stores). -/
def lexLe : List Char → List Char → Bool
  | [], _ => true
  | _ :: _, [] => false
  | c :: cs, d :: ds =>
    if c.toNat < d.toNat then true
    else if d.toNat < c.toNat then false
    else lexLe cs ds

/-- `ORDER BY data->>'sent_at' DESC`: row `a` precedes row `b` when `a`'s
`sent_at` text is at least `b`'s.  Postgres leaves the order of ties
unspecified; the embedding uses a stable sort, which fixes one of the
permitted outputs. -/
def sentAtGE (a b : Notification) : Prop :=
  lexLe b.sent_at.data a.sent_at.data = true

instance : DecidableRel sentAtGE := fun a b =>
  inferInstanceAs (Decidable (lexLe b.sent_at.data a.sent_at.data = true))

/-- The channel-id list read from the caller's subscriptions when the
`channel` query parameter is missing (`list_notifications`, first branch). -/
def default_channel_ids (tenant user : String) (db : DB) : List String :=
  (db.subscriptions.filter
    (fun s => s.tenant_id = tenant ∧ s.user_id = user)).map
    (fun s => s.channel_id)

/-- `GET /tenants/{tenant_id}/notifications` (`list_notifications` of
`notifications.py`).  When the `channel` query parameter is missing or empty
the channel set is read from the caller's subscriptions; the caller's own id
is always appended (direct sends); rows of the tenant addressed to that set
are ordered by `sent_at` descending and truncated to `limit`. -/
def list_notifications (tenant : String) (channel_ids : Option (List String))
    (limit : Nat) (user : String) (db : DB) : Except HErr (List Notification) :=
  if ¬ tenant_exists db tenant then .error .notFound else
  let base := match channel_ids with
    | none => []
    | some l => l
  let base := if base.isEmpty then default_channel_ids tenant user db else base
  let chans := base ++ [user]
  let filtered := db.notifications.filter
    (fun n => n.tenant_id = tenant ∧ n.channel_id ∈ chans)
  .ok ((filtered.insertionSort sentAtGE).take limit)

/-- The `for channel in payload.channel_ids` loop of `send_notifications`:
each iteration builds a fresh `Notification` (uuid and timestamp supplied by
`gen`) and runs `send_notification` with `save = True`; the loop variable
`msg` left over after the loop is returned. -/
def sendLoop (gen : Nat → String × String) (tenant sent_by title body : String) :
    List String → Nat → DB → DB × List Push × Option Notification
  | [], _, db => (db, [], none)
  | channel :: rest, i, db =>
    let msg : Notification :=
      { tenant_id := tenant, channel_id := channel, title := title,
        body := body, sent_by := sent_by, id := (gen i).1, sent_at := (gen i).2 }
    let s := send_notification tenant channel msg true db
    let r := sendLoop gen tenant sent_by title body rest (i + 1) s.1
    (r.1, s.2 ++ r.2.1, some ((r.2.2).getD msg))

/-- `POST /tenants/{tenant_id}/notifications` (`send_notifications` of
`notifications.py`): 404 for an unknown tenant, 400 for an empty channel
list, 403 when not admin; then one `send_notification(save=True)` per listed
channel id, with no further validation of the ids and no use of
`include_child_channels`. -/
def send_notifications (gen : Nat → String × String)
    (payload : NotificationCreate) (tenant user : String) (db : DB) :
    DB × List Push × Except HErr Notification :=
  if ¬ tenant_exists db tenant then (db, [], .error .notFound) else
  if payload.channel_ids.isEmpty then (db, [], .error .badRequest) else
  if ¬ is_tenant_admin tenant user then (db, [], .error .forbidden) else
  let r := sendLoop gen tenant user payload.title payload.body payload.channel_ids 0 db
  match r.2.2 with
  | some msg => (r.1, r.2.1, .ok msg)
  | none => (r.1, r.2.1, .error .badRequest)

/-- `POST /tenants/{tenant_id}/notifications/direct`
(`send_direct_notifications` of `notifications.py`): 404 for an unknown
tenant, 400 for an empty user id, 403 when not admin, 428 when the target
user's token record is absent or empty; otherwise push to the user's tokens
and insert the notification row. -/
def send_direct_notifications (payload : DirectNotificationCreate)
    (tenant user msgId sentAt : String) (db : DB) :
    DB × List Push × Except HErr Notification :=
  if ¬ tenant_exists db tenant then (db, [], .error .notFound) else
  if payload.user_id.isEmpty then (db, [], .error .badRequest) else
  if ¬ is_tenant_admin tenant user then (db, [], .error .forbidden) else
  let user_tokens := get_user_tokens tenant payload.user_id db
  if user_tokens.isEmpty then (db, [], .error .preconditionRequired) else
  let msg : Notification :=
    { tenant_id := tenant, channel_id := payload.user_id,
      title := payload.title, body := payload.body, sent_by := user,
      id := msgId, sent_at := sentAt }
  ({ db with notifications := db.notifications ++ [msg] },
    firebase_send user_tokens msg, .ok msg)

/-- `INSERT ... ON CONFLICT (id) DO UPDATE SET data = EXCLUDED.data` on the
`tokens` table: replace the row with the same id, or append. -/
def upsertToken (db : DB) (rec : Tokens) : DB :=
  if db.tokens.any (fun t => t.id = rec.id) then
    { db with tokens := db.tokens.map (fun t => if t.id = rec.id then rec else t) }
  else
    { db with tokens := db.tokens ++ [rec] }

/-- `POST /tenants/{tenant_id}/tokens` (`save_user_token` of
`subscriptions.py`): under key `"{user}:{tenant}"`, return without writing
when the incoming tokens are a subset of the stored set, otherwise upsert the
merged set (`list(existing | incoming)`, modelled as the deduplicated
concatenation — Python's set order is unspecified, the set of elements is
not) with a fresh `updated_at`; with no stored row, insert the incoming list
as given. -/
def save_user_token (device_tokens : List String) (tenant user now : String)
    (db : DB) : Except HErr DB :=
  if ¬ tenant_exists db tenant then .error .notFound else
  match db.tokens.find? (fun t => t.id = user ++ ":" ++ tenant) with
  | some row =>
    if device_tokens.all (fun t => t ∈ row.device_tokens) then .ok db
    else
      .ok (upsertToken db
        { id := user ++ ":" ++ tenant, tenant_id := tenant,
          device_tokens := (row.device_tokens ++ device_tokens).dedup,
          updated_at := now })
  | none =>
    .ok (upsertToken db
      { id := user ++ ":" ++ tenant, tenant_id := tenant,
        device_tokens := device_tokens, updated_at := now })

/-- `POST /tenants/{tenant_id}/channels/{channel_id}/subscriptions`
(`subscribe_to_channel` of `subscriptions.py`): 404 for an unknown tenant or
channel; insert the `"{user}@{channel}:{tenant}"`-keyed row with
`ON CONFLICT (id) DO NOTHING` and return the freshly built record. -/
def subscribe_to_channel (tenant channel user now : String) (db : DB) :
    DB × Except HErr Subscription :=
  if ¬ tenant_exists db tenant then (db, .error .notFound) else
  if ¬ channel_exists db channel then (db, .error .notFound) else
  let data : Subscription :=
    { id := user ++ "@" ++ channel ++ ":" ++ tenant, tenant_id := tenant,
      channel_id := channel, user_id := user, created_at := now }
  let db' := if db.subscriptions.any (fun s => s.id = data.id) then db
    else { db with subscriptions := db.subscriptions ++ [data] }
  (db', .ok data)

/-- `GET /tenants/{tenant_id}/channels` (`list_channels` of `channels.py`):
the source selects every row with the tenant's `tenant_id` and never consults
`include_private` (the admin gate is commented out). -/
def list_channels (_include_private : Bool) (tenant _user : String) (db : DB) :
    Except HErr (List Channel) :=
  if ¬ tenant_exists db tenant then .error .notFound else
  .ok (db.channels.filter (fun c => c.tenant_id = tenant))

/-- Python truthiness of `payload.parent_id` (`if payload.parent_id:`):
`None` and the empty string are falsy. -/
def parentIdTruthy : Option String → Bool
  | none => false
  | some p => p ≠ ""

/-- `POST /tenants/{tenant_id}/channels` (`create_channel` of `channels.py`):
404 for an unknown tenant, 403 when not admin, 409 when the id already names
a stored channel, 404 when a truthy `parent_id` names no stored channel;
otherwise insert the row built from the payload. -/
def create_channel (payload : ChannelCreate) (tenant user now : String)
    (db : DB) : DB × Except HErr Channel :=
  if ¬ tenant_exists db tenant then (db, .error .notFound) else
  if ¬ is_tenant_admin tenant user then (db, .error .forbidden) else
  if (db.channels.find? (fun c => c.id = payload.id)).isSome then
    (db, .error .conflict)
  else if parentIdTruthy payload.parent_id ∧
      ¬ (db.channels.find? (fun c => c.id = payload.parent_id.getD "")).isSome then
    (db, .error .notFound)
  else
    let data : Channel :=
      { id := payload.id, name := payload.name,
        description := payload.description, is_open := payload.is_open,
        is_private := payload.is_private, parent_id := payload.parent_id,
        tenant_id := tenant, updated_at := now, updated_by := some user }
    ({ db with channels := db.channels ++ [data] }, .ok data)

/-- `Settings.DEFAULT_TENANT` of `config.py`. -/
def DEFAULT_TENANT : String := "jamboree26"

/-- One iteration of `heartbeats_loop` (`heartbeats.py`): build the heartbeat
`Notification` and call `send_notification` with `save=False`. -/
def heartbeat_step (nowText msgId sentAt : String) (db : DB) : DB × List Push :=
  let msg : Notification :=
    { tenant_id := DEFAULT_TENANT, channel_id := "heartbeat",
      title := "HeartBeat", body := "Aktuell tid: " ++ nowText,
      sent_by := "Heartbeat loop", id := msgId, sent_at := sentAt }
  send_notification DEFAULT_TENANT "heartbeat" msg false db

/-! ## Concrete states for the claim instances -/

/-- Empty database but for the default tenant and an unsubscribed channel
`c`: the setting of C1's counterexample. -/
def dbC1 : DB :=
  { tenants := ["t"], channels := [{ id := "c", name := "C", tenant_id := "t" }] }

/-- A concrete message addressed to channel `c` of tenant `t`. -/
def msgC1 : Notification :=
  { tenant_id := "t", channel_id := "c", title := "Title", body := "Body",
    sent_by := "admin", id := "id1", sent_at := "ts1" }

/-- Tenant `t` with one real channel; user `u` subscribed to it with one
device token; the channel id `ghost` names no stored channel. -/
def dbC2 : DB :=
  { tenants := ["t"],
    channels := [{ id := "real", name := "Real", tenant_id := "t" }],
    tokens := [{ id := "u:t", tenant_id := "t", device_tokens := ["tok"],
                 updated_at := "n0" }],
    subscriptions := [{ id := "u@real:t", tenant_id := "t",
                        channel_id := "real", user_id := "u",
                        created_at := "n0" }] }

/-- A fixed uuid/timestamp generator for the loop iterations. -/
def genC2 : Nat → String × String := fun _ => ("idX", "tsX")

/-- A send targeting a nonexistent channel together with an existing one. -/
def payloadC2 : NotificationCreate :=
  { channel_ids := ["ghost", "real"], title := "T", body := "B" }

/-- Tenant `t`, channels `x` and `y`, and one user `u` subscribed to both
with the single device token `tok`. -/
def dbC3 : DB :=
  { tenants := ["t"],
    channels := [{ id := "x", name := "X", tenant_id := "t" },
                 { id := "y", name := "Y", tenant_id := "t" }],
    tokens := [{ id := "u:t", tenant_id := "t", device_tokens := ["tok"],
                 updated_at := "n0" }],
    subscriptions := [{ id := "u@x:t", tenant_id := "t", channel_id := "x",
                        user_id := "u", created_at := "n0" },
                      { id := "u@y:t", tenant_id := "t", channel_id := "y",
                        user_id := "u", created_at := "n0" }] }

/-- Loop generator for the C3 scenario. -/
def genC3 : Nat → String × String := fun _ => ("idY", "tsY")

/-- A send targeting both of `u`'s channels. -/
def payloadC3 : NotificationCreate :=
  { channel_ids := ["x", "y"], title := "T", body := "B" }

/-- Channel tree `cha → chb → chc` (`chb`'s parent is `cha`, `chc`'s parent
is `chb`) under tenant `t`; user `u` subscribed to `chb` only, with device
token `tok`. -/
def dbC4 : DB :=
  { tenants := ["t"],
    channels := [{ id := "cha", name := "A", tenant_id := "t" },
                 { id := "chb", name := "B", tenant_id := "t",
                   parent_id := some "cha" },
                 { id := "chc", name := "C", tenant_id := "t",
                   parent_id := some "chb" }],
    tokens := [{ id := "u:t", tenant_id := "t", device_tokens := ["tok"],
                 updated_at := "n0" }],
    subscriptions := [{ id := "u@chb:t", tenant_id := "t",
                        channel_id := "chb", user_id := "u",
                        created_at := "n0" }] }

/-- Loop generator for the C4 scenario. -/
def genC4 : Nat → String × String := fun _ => ("idZ", "tsZ")

/-- A send targeting the root `cha` with `include_child_channels` set. -/
def payloadC4 : NotificationCreate :=
  { channel_ids := ["cha"], include_child_channels := true,
    title := "T", body := "B" }

/-- A private channel of tenant `t`. -/
def chPriv : Channel :=
  { id := "priv", name := "Private", tenant_id := "t", is_private := true }

/-- Tenant `t` owning exactly the private channel. -/
def dbC5 : DB := { tenants := ["t"], channels := [chPriv] }

/-- Tenant `t` with no token records at all. -/
def dbC8 : DB := { tenants := ["t"] }

/-- A stored token record `{a, b}` for user `u` of tenant `t`. -/
def tokC6 : Tokens :=
  { id := "u:t", tenant_id := "t", device_tokens := ["a", "b"],
    updated_at := "n0" }

/-- Tenant `t` with `u`'s stored record. -/
def dbC6 : DB := { tenants := ["t"], tokens := [tokC6] }

/-- Tenant `t` with channel `c` and an empty subscription ledger. -/
def dbC7 : DB :=
  { tenants := ["t"], channels := [{ id := "c", name := "C", tenant_id := "t" }] }

/-- Tenant `t` with an existing parent channel `p`. -/
def dbC10 : DB :=
  { tenants := ["t"], channels := [{ id := "p", name := "P", tenant_id := "t" }] }

/-- A valid create request naming `p` as parent. -/
def payloadC10 : ChannelCreate :=
  { id := "x", name := "X", parent_id := some "p" }

/-- The channel row the create inserts. -/
def chC10 : Channel :=
  { id := "x", name := "X", tenant_id := "t", parent_id := some "p",
    updated_at := "n1", updated_by := some "admin" }

/-- The database after the create. -/
def dbC10' : DB := { dbC10 with channels := dbC10.channels ++ [chC10] }

/-- Three notifications to channel `c` of tenant `t` at strictly increasing
`sent_at` texts. -/
def nC9a : Notification :=
  { tenant_id := "t", channel_id := "c", title := "A", body := "BA",
    sent_by := "adm", id := "i1", sent_at := "t1" }

/-- Second, more recent notification. -/
def nC9b : Notification :=
  { tenant_id := "t", channel_id := "c", title := "B", body := "BB",
    sent_by := "adm", id := "i2", sent_at := "t2" }

/-- Third, most recent notification. -/
def nC9c : Notification :=
  { tenant_id := "t", channel_id := "c", title := "C", body := "BC",
    sent_by := "adm", id := "i3", sent_at := "t3" }

/-- Tenant `t`, user `u` subscribed to `c`, three stored notifications in
send order. -/
def dbC9 : DB :=
  { tenants := ["t"],
    channels := [{ id := "c", name := "C", tenant_id := "t" }],
    subscriptions := [{ id := "u@c:t", tenant_id := "t", channel_id := "c",
                        user_id := "u", created_at := "n0" }],
    notifications := [nC9a, nC9b, nC9c] }

/-! ## Facts about the sort order -/

theorem lexLe_total : ∀ x y : List Char, lexLe x y = true ∨ lexLe y x = true := by
  intro x
  induction x with
  | nil => intro y; exact Or.inl rfl
  | cons c cs ih =>
    intro y
    cases y with
    | nil => exact Or.inr rfl
    | cons d ds =>
      by_cases h1 : c.toNat < d.toNat
      · exact Or.inl (by simp [lexLe, h1])
      · by_cases h2 : d.toNat < c.toNat
        · exact Or.inr (by simp [lexLe, h2])
        · rcases ih ds with h | h
          · exact Or.inl (by simp [lexLe, h1, h2, h])
          · exact Or.inr (by simp [lexLe, h1, h2, h])

theorem lexLe_trans : ∀ x y z : List Char,
    lexLe x y = true → lexLe y z = true → lexLe x z = true := by
  intro x
  induction x with
  | nil => intro y z _ _; rfl
  | cons c cs ih =>
    intro y z hxy hyz
    cases y with
    | nil => simp [lexLe] at hxy
    | cons d ds =>
      cases z with
      | nil => simp [lexLe] at hyz
      | cons e es =>
        simp only [lexLe] at hxy hyz ⊢
        by_cases h1 : c.toNat < d.toNat
        · by_cases h2 : d.toNat < e.toNat
          · simp [Nat.lt_trans h1 h2]
          · by_cases h3 : e.toNat < d.toNat
            · rw [if_neg h2, if_pos h3] at hyz
              exact absurd hyz (by simp)
            · have : c.toNat < e.toNat := by omega
              simp [this]
        · by_cases h4 : d.toNat < c.toNat
          · rw [if_neg h1, if_pos h4] at hxy
            exact absurd hxy (by simp)
          · rw [if_neg h1, if_neg h4] at hxy
            by_cases h2 : d.toNat < e.toNat
            · have : c.toNat < e.toNat := by omega
              simp [this]
            · by_cases h3 : e.toNat < d.toNat
              · rw [if_neg h2, if_pos h3] at hyz
                exact absurd hyz (by simp)
              · rw [if_neg h2, if_neg h3] at hyz
                have hce1 : ¬ c.toNat < e.toNat := by omega
                have hce2 : ¬ e.toNat < c.toNat := by omega
                rw [if_neg hce1, if_neg hce2]
                exact ih ds es hxy hyz

instance : IsTotal Notification sentAtGE :=
  ⟨fun a b => lexLe_total b.sent_at.data a.sent_at.data⟩

instance : IsTrans Notification sentAtGE :=
  ⟨fun _ _ _ hab hbc => lexLe_trans _ _ _ hbc hab⟩

/-! ## Shared lemmas about the send path -/

/-- `get_subscription_tokens` reads only the `subscriptions` and `tokens`
tables. -/
theorem get_subscription_tokens_congr (tenant c : String) {db db' : DB}
    (hs : db'.subscriptions = db.subscriptions) (ht : db'.tokens = db.tokens) :
    get_subscription_tokens tenant c db' = get_subscription_tokens tenant c db := by
  simp only [get_subscription_tokens, hs, ht]

/-- `send_notification` leaves every table but `notifications` unchanged,
pushes exactly the resolved token batch, and appends the row exactly when the
batch is nonempty and `save` is set. -/
theorem send_notification_spec (tenant channel : String) (msg : Notification)
    (save : Bool) (db : DB) :
    (send_notification tenant channel msg save db).1.tenants = db.tenants ∧
    (send_notification tenant channel msg save db).1.channels = db.channels ∧
    (send_notification tenant channel msg save db).1.subscriptions = db.subscriptions ∧
    (send_notification tenant channel msg save db).1.tokens = db.tokens ∧
    (send_notification tenant channel msg save db).2 =
      firebase_send (get_subscription_tokens tenant channel db) msg ∧
    (send_notification tenant channel msg save db).1.notifications =
      (if (!(get_subscription_tokens tenant channel db).isEmpty && save)
       then db.notifications ++ [msg] else db.notifications) := by
  unfold send_notification
  cases h : (get_subscription_tokens tenant channel db).isEmpty
  · cases save <;> simp [h, firebase_send]
  · simp [h, firebase_send]

/-- The per-channel send loop: tables other than `notifications` are
untouched; the push batches are, channel by channel in order and with no
cross-channel dedup, the nonempty resolved token lists; one row is appended
per channel whose batch is nonempty; and the returned message is present
exactly when the channel list is nonempty. -/
theorem sendLoop_spec (gen : Nat → String × String)
    (tenant sent_by title body : String) :
    ∀ (chans : List String) (i : Nat) (db : DB),
      (sendLoop gen tenant sent_by title body chans i db).1.tenants = db.tenants ∧
      (sendLoop gen tenant sent_by title body chans i db).1.channels = db.channels ∧
      (sendLoop gen tenant sent_by title body chans i db).1.subscriptions = db.subscriptions ∧
      (sendLoop gen tenant sent_by title body chans i db).1.tokens = db.tokens ∧
      (sendLoop gen tenant sent_by title body chans i db).2.1.map Push.tokens =
        chans.filterMap (fun c =>
          if (get_subscription_tokens tenant c db).isEmpty then none
          else some (get_subscription_tokens tenant c db)) ∧
      (sendLoop gen tenant sent_by title body chans i db).2.1.flatMap Push.tokens =
        chans.flatMap (fun c => get_subscription_tokens tenant c db) ∧
      (sendLoop gen tenant sent_by title body chans i db).1.notifications.length =
        db.notifications.length +
          chans.countP (fun c => !(get_subscription_tokens tenant c db).isEmpty) ∧
      (sendLoop gen tenant sent_by title body chans i db).2.2.isSome = !chans.isEmpty := by
  intro chans
  induction chans with
  | nil => intro i db; simp [sendLoop]
  | cons c rest ih =>
    intro i db
    simp only [sendLoop]
    have hs := send_notification_spec tenant c
      { tenant_id := tenant, channel_id := c, title := title, body := body,
        sent_by := sent_by, id := (gen i).1, sent_at := (gen i).2 } true db
    obtain ⟨h1, h2, h3, h4, h5, h6⟩ := hs
    have hr := ih (i + 1)
      (send_notification tenant c
        { tenant_id := tenant, channel_id := c, title := title, body := body,
          sent_by := sent_by, id := (gen i).1, sent_at := (gen i).2 } true db).1
    obtain ⟨g1, g2, g3, g4, g5, g6, g7, g8⟩ := hr
    have hpt : ∀ c' : String,
        get_subscription_tokens tenant c'
          (send_notification tenant c
            { tenant_id := tenant, channel_id := c, title := title, body := body,
              sent_by := sent_by, id := (gen i).1, sent_at := (gen i).2 } true db).1 =
        get_subscription_tokens tenant c' db :=
      fun c' => get_subscription_tokens_congr tenant c' h3 h4
    refine ⟨by simp [g1, h1], by simp [g2, h2], by simp [g3, h3], by simp [g4, h4],
      ?_, ?_, ?_, by simp⟩
    · simp only [List.map_append, g5, hpt, List.filterMap_cons, h5, firebase_send]
      cases hemp : (get_subscription_tokens tenant c db).isEmpty <;> simp [hemp]
    · simp only [List.flatMap_append, g6, hpt, List.flatMap_cons, h5, firebase_send]
      cases hemp : (get_subscription_tokens tenant c db).isEmpty
      · simp [hemp]
      · simp [hemp, List.isEmpty_iff.mp hemp]
    · simp only [g7, hpt, h6, List.countP_cons]
      cases hemp : (get_subscription_tokens tenant c db).isEmpty
      all_goals simp [hemp]
      all_goals omega

/-! ## C1: persistence of NotificationRecords -/

/-- C1 as stated is false: a channel-addressed send with `save=True` whose
fan-out resolves an empty token set persists nothing — the insert sits inside
`if msg_tokens:`, so no `NotificationRecord` is written for the channel. -/
theorem C1_counterexample :
    get_subscription_tokens "t" "c" dbC1 = [] ∧
    ¬ ((send_notification "t" "c" msgC1 true dbC1).1.notifications.length =
        dbC1.notifications.length + 1) := by decide

/-- C1 (amended): with `save=True` a record is appended exactly when the
resolved token set is nonempty — one record per target channel whose fan-out
found at least one token, none for a channel with empty fan-out; with
`save=False` (the heartbeat loop) the database is untouched. -/
theorem C1_persistence :
    (∀ (tenant channel : String) (msg : Notification) (save : Bool) (db : DB),
      (send_notification tenant channel msg save db).1.notifications =
        (if (!(get_subscription_tokens tenant channel db).isEmpty && save)
         then db.notifications ++ [msg] else db.notifications)) ∧
    (∀ (gen : Nat → String × String) (payload : NotificationCreate)
        (tenant user : String) (db : DB),
      tenant_exists db tenant = true →
      (send_notifications gen payload tenant user db).1.notifications.length =
        db.notifications.length +
          payload.channel_ids.countP
            (fun c => !(get_subscription_tokens tenant c db).isEmpty)) ∧
    (∀ (nowText msgId sentAt : String) (db : DB),
      (heartbeat_step nowText msgId sentAt db).1 = db) := by
  refine ⟨?_, ?_, ?_⟩
  · intro tenant channel msg save db
    exact (send_notification_spec tenant channel msg save db).2.2.2.2.2
  · intro gen payload tenant user db ht
    have hl := sendLoop_spec gen tenant user payload.title payload.body
      payload.channel_ids 0 db
    unfold send_notifications
    cases hemp : payload.channel_ids.isEmpty
    · rcases hopt : (sendLoop gen tenant user payload.title payload.body
          payload.channel_ids 0 db).2.2 with _ | msg
      · exfalso
        have hsome := hl.2.2.2.2.2.2.2
        rw [hopt] at hsome
        simp [hemp] at hsome
      · simp [ht, hemp, is_tenant_admin, hopt, hl.2.2.2.2.2.2.1]
    · simp [ht, hemp, List.isEmpty_iff.mp hemp]
  · intro nowText msgId sentAt db
    unfold heartbeat_step send_notification
    cases hemp :
      (get_subscription_tokens DEFAULT_TENANT "heartbeat" db).isEmpty
    all_goals simp [hemp]

/-- Witness for C1's amended theorem: in the concrete two-channel state one
channel resolves tokens and one does not, so exactly one record is appended. -/
theorem C1_witness :
    (send_notifications genC2 payloadC2 "t" "admin" dbC2).1.notifications.length =
      dbC2.notifications.length + 1 := by
  have h := C1_persistence.2.1 genC2 payloadC2 "t" "admin" dbC2 (by decide)
  exact h.trans (by decide)

/-! ## C2: no channel-existence validation on multi-channel send -/

/-- C2 as stated is false: `ghost` does not exist, yet the request does not
fail `NotFound`; it dispatches a push and persists a record for `real` — a
partial broadcast with no existence validation. -/
theorem C2_counterexample :
    channel_exists dbC2 "ghost" = false ∧
    (send_notifications genC2 payloadC2 "t" "admin" dbC2).2.2 ≠
      .error .notFound ∧
    (send_notifications genC2 payloadC2 "t" "admin" dbC2).2.1 ≠ [] ∧
    (send_notifications genC2 payloadC2 "t" "admin" dbC2).1.notifications ≠ [] := by
  decide

/-- C2 (amended): target channel ids are never validated for existence — once
the empty-list (400) and admin (403) guards pass, the request always succeeds
with `202`, each listed channel dispatched independently (a nonexistent id
simply resolves zero subscribers). -/
theorem C2_no_validation (gen : Nat → String × String)
    (payload : NotificationCreate) (tenant user : String) (db : DB)
    (ht : tenant_exists db tenant = true)
    (hne : payload.channel_ids ≠ []) :
    ∃ msg, (send_notifications gen payload tenant user db).2.2 = .ok msg := by
  have hl := (sendLoop_spec gen tenant user payload.title payload.body
    payload.channel_ids 0 db).2.2.2.2.2.2.2
  have hemp : payload.channel_ids.isEmpty = false := by
    simpa [List.isEmpty_iff] using hne
  unfold send_notifications
  rcases hopt : (sendLoop gen tenant user payload.title payload.body
      payload.channel_ids 0 db).2.2 with _ | msg
  · rw [hopt] at hl
    simp [hemp] at hl
  · exact ⟨msg, by simp [ht, hemp, is_tenant_admin, hopt]⟩

/-- Witness for C2's amended theorem at the concrete counterexample state. -/
theorem C2_witness :
    ∃ msg, (send_notifications genC2 payloadC2 "t" "admin" dbC2).2.2 =
      .ok msg :=
  C2_no_validation genC2 payloadC2 "t" "admin" dbC2 (by decide) (by decide)

/-! ## C3: no cross-channel dedup of delivery tokens -/

/-- C3 as stated is false: the user subscribed to both target channels has
their token in the delivery batch twice — resolution is per channel with no
union or dedup of user ids across channels. -/
theorem C3_counterexample :
    ((send_notifications genC3 payloadC3 "t" "admin" dbC3).2.1.flatMap
        Push.tokens).count "tok" = 2 ∧
    ¬ (((send_notifications genC3 payloadC3 "t" "admin" dbC3).2.1.flatMap
        Push.tokens).count "tok" = 1) := by decide

/-- C3 (amended): token resolution is independent per listed channel — the
push batches are exactly the nonempty per-channel token lists in order, and
the delivered tokens are the concatenation over channels; a user subscribed
to several target channels contributes once per matched channel. -/
theorem C3_per_channel (gen : Nat → String × String)
    (payload : NotificationCreate) (tenant user : String) (db : DB)
    (ht : tenant_exists db tenant = true) :
    (send_notifications gen payload tenant user db).2.1.map Push.tokens =
      payload.channel_ids.filterMap (fun c =>
        if (get_subscription_tokens tenant c db).isEmpty then none
        else some (get_subscription_tokens tenant c db)) ∧
    (send_notifications gen payload tenant user db).2.1.flatMap Push.tokens =
      payload.channel_ids.flatMap (fun c => get_subscription_tokens tenant c db) := by
  have hl := sendLoop_spec gen tenant user payload.title payload.body
    payload.channel_ids 0 db
  unfold send_notifications
  cases hemp : payload.channel_ids.isEmpty
  · rcases hopt : (sendLoop gen tenant user payload.title payload.body
        payload.channel_ids 0 db).2.2 with _ | msg
    · exfalso
      have hsome := hl.2.2.2.2.2.2.2
      rw [hopt] at hsome
      simp [hemp] at hsome
    · exact ⟨by simp [ht, hemp, is_tenant_admin, hopt, hl.2.2.2.2.1],
        by simp [ht, hemp, is_tenant_admin, hopt, hl.2.2.2.2.2.1]⟩
  · simp [ht, hemp, List.isEmpty_iff.mp hemp]

/-- Witness for C3's amended theorem at the concrete two-channel state. -/
theorem C3_witness :
    (send_notifications genC3 payloadC3 "t" "admin" dbC3).2.1.map Push.tokens =
      payloadC3.channel_ids.filterMap (fun c =>
        if (get_subscription_tokens "t" c dbC3).isEmpty then none
        else some (get_subscription_tokens "t" c dbC3)) ∧
    (send_notifications genC3 payloadC3 "t" "admin" dbC3).2.1.flatMap Push.tokens =
      payloadC3.channel_ids.flatMap (fun c => get_subscription_tokens "t" c dbC3) :=
  C3_per_channel genC3 payloadC3 "t" "admin" dbC3 (by decide)

/-! ## C4: include_child_channels performs no descendant expansion -/

/-- C4 as stated is false: with the descendant option set and a subscriber of
the child channel `chb`, targeting the root `cha` delivers nothing — the
working channel set is never expanded along `parent_id` edges. -/
theorem C4_counterexample :
    payloadC4.include_child_channels = true ∧
    dbC4.channels.map (fun c => (c.id, c.parent_id)) =
      [("cha", none), ("chb", some "cha"), ("chc", some "chb")] ∧
    "tok" ∈ get_subscription_tokens "t" "chb" dbC4 ∧
    (send_notifications genC4 payloadC4 "t" "admin" dbC4).2.1.flatMap
      Push.tokens = [] := by decide

/-- C4 (amended): `include_child_channels` is accepted but never read — the
endpoint's entire result (state, pushes and response) is independent of the
flag, and only the explicitly listed channels are resolved. -/
theorem C4_flag_unused (gen : Nat → String × String)
    (payload : NotificationCreate) (b : Bool) (tenant user : String) (db : DB) :
    send_notifications gen { payload with include_child_channels := b }
        tenant user db =
      send_notifications gen payload tenant user db := by
  cases payload
  rfl

/-! ## C5: list_channels ignores include_private -/

/-- Evaluating the code at C5's failing input: the listing query never
consults `include_private`, so with `include_private = false` the private
channel is still returned, contradicting the documented meaning of the flag
("Also include private channels"). -/
theorem C5_code_eval :
    chPriv.is_private = true ∧
    list_channels false "t" "u" dbC5 = .ok [chPriv] ∧
    (∀ b₁ b₂ : Bool, ∀ tenant u₁ u₂ : String, ∀ db : DB,
      list_channels b₁ tenant u₁ db = list_channels b₂ tenant u₂ db) := by
  exact ⟨by decide, by decide, fun _ _ _ _ _ _ => rfl⟩

/-! ## C8: direct send precondition -/

/-- C8: a direct send to a user whose token record is absent or empty fails
with 428 PreconditionRequired, leaving the database untouched and invoking
no push. -/
theorem C8_direct_precondition (payload : DirectNotificationCreate)
    (tenant user msgId sentAt : String) (db : DB)
    (ht : tenant_exists db tenant = true)
    (hu : payload.user_id.isEmpty = false)
    (htok : get_user_tokens tenant payload.user_id db = []) :
    send_direct_notifications payload tenant user msgId sentAt db =
      (db, [], .error .preconditionRequired) := by
  unfold send_direct_notifications
  simp [ht, hu, htok, is_tenant_admin]

/-- Witness for C8 at a concrete tokenless user. -/
theorem C8_witness :
    send_direct_notifications { user_id := "v", title := "T", body := "B" }
        "t" "admin" "idW" "tsW" dbC8 =
      (dbC8, [], .error .preconditionRequired) :=
  C8_direct_precondition { user_id := "v", title := "T", body := "B" }
    "t" "admin" "idW" "tsW" dbC8 (by decide) (by decide) (by decide)

/-! ## C6: token registration is set union -/

/-- Python's `set(l).issubset(set(m))` agrees with `toFinset` inclusion. -/
theorem all_mem_iff_subset {l m : List String} :
    (l.all (fun t => t ∈ m)) = true ↔ l.toFinset ⊆ m.toFinset := by
  simp [List.all_eq_true, Finset.subset_iff, List.mem_toFinset]

/-- After an upsert, looking the key up finds exactly the upserted row. -/
theorem find?_key_upsert (l : List Tokens) (rec : Tokens) :
    ((if l.any (fun t => t.id = rec.id) then
        l.map (fun t => if t.id = rec.id then rec else t)
      else l ++ [rec]).find? (fun t => t.id = rec.id)) = some rec := by
  induction l with
  | nil => simp
  | cons a l ih =>
    by_cases ha : a.id = rec.id
    · simp [List.any_cons, ha, List.find?_cons]
    · have ha' : (decide (a.id = rec.id)) = false := by simp [ha]
      cases h : l.any (fun t => t.id = rec.id)
      · simp only [List.any_cons, ha', Bool.false_or, h, if_false, Bool.false_eq_true,
          List.cons_append]
        rw [List.find?_cons_of_neg _ (by simp [ha])]
        simpa [h] using ih
      · simp only [List.any_cons, ha', Bool.false_or, h, if_true, List.map_cons,
          if_neg ha]
        rw [List.find?_cons_of_neg _ (by simp [ha])]
        simpa [h] using ih

/-- Reading a user's tokens right after `upsertToken` of their key yields the
upserted record's list. -/
theorem get_user_tokens_upsert (tenant user : String) (db : DB) (rec : Tokens)
    (hid : rec.id = user ++ ":" ++ tenant) :
    get_user_tokens tenant user (upsertToken db rec) = rec.device_tokens := by
  unfold get_user_tokens upsertToken
  rw [← hid]
  have h := find?_key_upsert db.tokens rec
  cases hc : db.tokens.any (fun t => t.id = rec.id)
  · rw [hc] at h
    simp only [Bool.false_eq_true, if_false] at h
    simp [hc, h]
  · rw [hc] at h
    simp only [if_true] at h
    simp [hc, h]

/-- C6: `save_user_token` computes the set union.  If the key has a stored
row and the incoming set is a subset of the stored set, the whole database —
`updated_at` included — is returned unchanged; in every success case the
stored token set of the key afterwards is `existing ∪ incoming`. -/
theorem C6_register_union (incoming : List String) (tenant user now : String)
    (db : DB) (ht : tenant_exists db tenant = true) :
    (∀ r, db.tokens.find? (fun t => t.id = user ++ ":" ++ tenant) = some r →
      incoming.toFinset ⊆ r.device_tokens.toFinset →
      save_user_token incoming tenant user now db = .ok db) ∧
    (∀ db', save_user_token incoming tenant user now db = .ok db' →
      (get_user_tokens tenant user db').toFinset =
        (get_user_tokens tenant user db).toFinset ∪ incoming.toFinset) := by
  constructor
  · intro r hr hsub
    unfold save_user_token
    simp [ht, hr, all_mem_iff_subset.mpr hsub]
  · intro db' hdb'
    unfold save_user_token at hdb'
    rw [if_neg (by simp [ht])] at hdb'
    cases hfind : db.tokens.find? (fun t => t.id = user ++ ":" ++ tenant) with
    | some r =>
      rw [hfind] at hdb'
      dsimp only at hdb'
      have hgut : get_user_tokens tenant user db = r.device_tokens := by
        unfold get_user_tokens
        rw [hfind]
      by_cases hsub : (incoming.all (fun t => t ∈ r.device_tokens)) = true
      · rw [if_pos hsub] at hdb'
        cases hdb'
        rw [hgut]
        exact (Finset.union_eq_left.mpr (all_mem_iff_subset.mp hsub)).symm
      · rw [if_neg hsub] at hdb'
        cases hdb'
        rw [hgut, get_user_tokens_upsert tenant user db _ rfl]
        ext a
        simp [List.mem_dedup]
    | none =>
      rw [hfind] at hdb'
      dsimp only at hdb'
      have hgut : get_user_tokens tenant user db = [] := by
        unfold get_user_tokens
        rw [hfind]
      cases hdb'
      rw [hgut, get_user_tokens_upsert tenant user db _ rfl]
      simp

/-- Witness for C6: registering the subset `{b}` performs no write and leaves
the stored record (its `updated_at` included) unchanged; registering
`{b, c}` yields the stored set `{a, b} ∪ {b, c}`. -/
theorem C6_witness :
    save_user_token ["b"] "t" "u" "n1" dbC6 = .ok dbC6 ∧
    (∀ db', save_user_token ["b", "c"] "t" "u" "n1" dbC6 = .ok db' →
      (get_user_tokens "t" "u" db').toFinset =
        (get_user_tokens "t" "u" dbC6).toFinset ∪
          (["b", "c"] : List String).toFinset) :=
  ⟨(C6_register_union ["b"] "t" "u" "n1" dbC6 (by decide)).1 tokC6
      (by decide) (by decide),
    (C6_register_union ["b", "c"] "t" "u" "n1" dbC6 (by decide)).2⟩

/-! ## C7: subscribe is idempotent -/

/-- If no row carries the key, filtering for the key yields nothing. -/
theorem filter_key_nil {l : List Subscription} {key : String}
    (h : l.any (fun s => s.id = key) = false) :
    l.filter (fun s => s.id = key) = [] := by
  rw [List.filter_eq_nil_iff]
  intro a ha
  rw [List.any_eq_false] at h
  simpa using h a ha

/-- Under the primary-key invariant, a present key is carried by exactly one
row. -/
theorem filter_key_one {l : List Subscription} {key : String}
    (hnd : (l.map Subscription.id).Nodup)
    (h : l.any (fun s => s.id = key) = true) :
    (l.filter (fun s => s.id = key)).length = 1 := by
  induction l with
  | nil => simp at h
  | cons a l ih =>
    rw [List.map_cons, List.nodup_cons] at hnd
    by_cases ha : a.id = key
    · have htail : l.filter (fun s => s.id = key) = [] := by
        apply filter_key_nil
        rw [List.any_eq_false]
        intro s hs
        simp only [decide_eq_true_eq]
        intro hsk
        exact hnd.1 (List.mem_map.mpr ⟨s, hs, hsk.trans ha.symm⟩)
      simp [List.filter_cons, ha, htail]
    · have h' : l.any (fun s => s.id = key) = true := by
        simpa [List.any_cons, ha] using h
      simpa [List.filter_cons, ha] using ih hnd.2 h'

/-- `tenant_exists` ignores the `subscriptions` table. -/
theorem tenant_exists_subs (d : DB) (l : List Subscription) (t : String) :
    tenant_exists { d with subscriptions := l } t = tenant_exists d t := rfl

/-- `channel_exists` ignores the `subscriptions` table. -/
theorem channel_exists_subs (d : DB) (l : List Subscription) (c : String) :
    channel_exists { d with subscriptions := l } c = channel_exists d c := rfl

/-- A subscribe call past its 404 guards: no-op insert under `ON CONFLICT DO
NOTHING`, answer is the freshly built record. -/
theorem subscribe_step (tenant channel user now' : String) (d : DB)
    (htd : tenant_exists d tenant = true)
    (hcd : channel_exists d channel = true) :
    subscribe_to_channel tenant channel user now' d =
      ((if d.subscriptions.any
            (fun s => s.id = user ++ "@" ++ channel ++ ":" ++ tenant)
        then d
        else { d with subscriptions := d.subscriptions ++
          [(⟨user ++ "@" ++ channel ++ ":" ++ tenant, tenant, channel, user,
             now'⟩ : Subscription)] }),
       .ok (⟨user ++ "@" ++ channel ++ ":" ++ tenant, tenant, channel, user,
             now'⟩ : Subscription)) := by
  unfold subscribe_to_channel
  simp [htd, hcd]

/-- C7: under the `subscriptions` primary-key invariant, two identical
subscribe calls leave the state of the first call unchanged, exactly one
ledger row carries the composite key `user@channel:tenant`, and the second
call answers with a record carrying the key's fields instead of an error. -/
theorem C7_subscribe_idempotent (tenant channel user now1 now2 : String)
    (db : DB) (ht : tenant_exists db tenant = true)
    (hc : channel_exists db channel = true)
    (hnd : (db.subscriptions.map Subscription.id).Nodup) :
    (subscribe_to_channel tenant channel user now2
        (subscribe_to_channel tenant channel user now1 db).1).1 =
      (subscribe_to_channel tenant channel user now1 db).1 ∧
    ((subscribe_to_channel tenant channel user now2
        (subscribe_to_channel tenant channel user now1 db).1).1.subscriptions.filter
        (fun s => s.id = user ++ "@" ++ channel ++ ":" ++ tenant)).length = 1 ∧
    ∃ s, (subscribe_to_channel tenant channel user now2
        (subscribe_to_channel tenant channel user now1 db).1).2 = .ok s ∧
      s.id = user ++ "@" ++ channel ++ ":" ++ tenant ∧
      s.tenant_id = tenant ∧ s.channel_id = channel ∧ s.user_id = user := by
  have hstep1 := subscribe_step tenant channel user now1 db ht hc
  cases h1 : db.subscriptions.any
      (fun s => s.id = user ++ "@" ++ channel ++ ":" ++ tenant)
  · have hd1 : (subscribe_to_channel tenant channel user now1 db).1 =
        { db with subscriptions := db.subscriptions ++
            [(⟨user ++ "@" ++ channel ++ ":" ++ tenant, tenant, channel, user,
               now1⟩ : Subscription)] } := by
      rw [hstep1, h1]
      simp
    have hstep2 := subscribe_step tenant channel user now2
      { db with subscriptions := db.subscriptions ++
          [(⟨user ++ "@" ++ channel ++ ":" ++ tenant, tenant, channel, user,
             now1⟩ : Subscription)] }
      (by rw [tenant_exists_subs]; exact ht)
      (by rw [channel_exists_subs]; exact hc)
    have h2 : ({ db with subscriptions := db.subscriptions ++
        [(⟨user ++ "@" ++ channel ++ ":" ++ tenant, tenant, channel, user,
           now1⟩ : Subscription)] } : DB).subscriptions.any
        (fun s => s.id = user ++ "@" ++ channel ++ ":" ++ tenant) = true := by
      simp
    rw [hd1, hstep2, h2]
    refine ⟨by simp, ?_,
      ⟨(⟨user ++ "@" ++ channel ++ ":" ++ tenant, tenant, channel, user,
         now2⟩ : Subscription), by simp, rfl, rfl, rfl, rfl⟩⟩
    simp only [if_true]
    have := filter_key_nil h1
    simp [List.filter_append, this, List.filter_cons]
  · have hd1 : (subscribe_to_channel tenant channel user now1 db).1 = db := by
      rw [hstep1, h1]
      simp
    have hstep2 := subscribe_step tenant channel user now2 db ht hc
    rw [hd1, hstep2, h1]
    refine ⟨by simp, ?_,
      ⟨(⟨user ++ "@" ++ channel ++ ":" ++ tenant, tenant, channel, user,
         now2⟩ : Subscription), by simp, rfl, rfl, rfl, rfl⟩⟩
    simp only [Bool.false_eq_true, if_false]
    exact filter_key_one hnd h1

/-- Witness for C7 starting from the empty ledger. -/
theorem C7_witness :
    (subscribe_to_channel "t" "c" "u" "n2"
        (subscribe_to_channel "t" "c" "u" "n1" dbC7).1).1 =
      (subscribe_to_channel "t" "c" "u" "n1" dbC7).1 ∧
    ((subscribe_to_channel "t" "c" "u" "n2"
        (subscribe_to_channel "t" "c" "u" "n1" dbC7).1).1.subscriptions.filter
        (fun s => s.id = "u" ++ "@" ++ "c" ++ ":" ++ "t")).length = 1 ∧
    ∃ s, (subscribe_to_channel "t" "c" "u" "n2"
        (subscribe_to_channel "t" "c" "u" "n1" dbC7).1).2 = .ok s ∧
      s.id = "u" ++ "@" ++ "c" ++ ":" ++ "t" ∧
      s.tenant_id = "t" ∧ s.channel_id = "c" ∧ s.user_id = "u" :=
  C7_subscribe_idempotent "t" "c" "u" "n1" "n2" dbC7
    (by decide) (by decide) (by decide)

/-! ## C10: self-parenting is unreachable at creation -/

/-- C10: a successful create yields a channel whose `parent_id` is not its
own id — the duplicate check requires the id to be absent from storage while
a truthy `parent_id` must name a stored channel, so the two checks together
exclude self-parenting; the new row is appended as returned. -/
theorem C10_no_self_parent (payload : ChannelCreate) (tenant user now : String)
    (db : DB) (hid : validChannelId payload.id = true) :
    ∀ db' ch, create_channel payload tenant user now db = (db', .ok ch) →
      ch.parent_id ≠ some ch.id ∧ ch.id = payload.id ∧
      db'.channels = db.channels ++ [ch] := by
  intro db' ch h
  unfold create_channel at h
  by_cases ht : ¬ tenant_exists db tenant
  · rw [if_pos ht] at h
    exact absurd (congrArg Prod.snd h) (by simp)
  rw [if_neg ht] at h
  by_cases ha : ¬ is_tenant_admin tenant user
  · rw [if_pos ha] at h
    exact absurd (congrArg Prod.snd h) (by simp)
  rw [if_neg ha] at h
  by_cases hdup : ((db.channels.find? (fun c => c.id = payload.id)).isSome : Prop)
  · rw [if_pos hdup] at h
    exact absurd (congrArg Prod.snd h) (by simp)
  rw [if_neg hdup] at h
  by_cases hpar : (parentIdTruthy payload.parent_id = true ∧
      ¬ ((db.channels.find?
        (fun c => c.id = payload.parent_id.getD "")).isSome = true))
  · rw [if_pos hpar] at h
    exact absurd (congrArg Prod.snd h) (by simp)
  rw [if_neg hpar] at h
  dsimp only at h
  rw [Prod.mk.injEq] at h
  obtain ⟨hdb, hok⟩ := h
  have hch := Except.ok.inj hok
  subst hch
  refine ⟨?_, rfl, ?_⟩
  · intro hself
    have hpid : payload.parent_id = some payload.id := hself
    have hne : payload.id ≠ "" := by
      unfold validChannelId at hid
      rw [Bool.and_eq_true] at hid
      simpa using hid.1
    have htruthy : parentIdTruthy payload.parent_id = true := by
      rw [hpid]
      simp [parentIdTruthy, hne]
    apply hpar
    refine ⟨htruthy, ?_⟩
    rw [hpid]
    simpa using hdup
  · rw [← hdb]

/-- Witness for C10 at a concrete successful create. -/
theorem C10_witness :
    chC10.parent_id ≠ some chC10.id ∧ chC10.id = "x" ∧
    dbC10'.channels = dbC10.channels ++ [chC10] := by
  have h := C10_no_self_parent payloadC10 "t" "admin" "n1" dbC10 (by decide)
    dbC10' chC10 (by decide)
  exact ⟨h.1, h.2.1, h.2.2⟩

/-! ## C9: history read -/

/-- C9: the default history read returns at most `limit` rows; they are
ordered by `sent_at` descending; every returned row is a stored notification
of the tenant addressed either to a channel the user subscribes to or to the
user directly; and when at most `limit` rows match, all matching rows are
returned. -/
theorem C9_history (tenant user : String) (limit : Nat) (db : DB)
    (ht : tenant_exists db tenant = true)
    (_h1 : 1 ≤ limit) (_h50 : limit ≤ 50) :
    ∃ l, list_notifications tenant none limit user db = .ok l ∧
      l.length ≤ limit ∧
      l.Sorted sentAtGE ∧
      (∀ n ∈ l, n ∈ db.notifications ∧ n.tenant_id = tenant ∧
        (n.channel_id ∈ default_channel_ids tenant user db ∨
          n.channel_id = user)) ∧
      ((db.notifications.filter (fun n => n.tenant_id = tenant ∧
          n.channel_id ∈ default_channel_ids tenant user db ++ [user])).length
            ≤ limit →
        l.Perm (db.notifications.filter (fun n => n.tenant_id = tenant ∧
          n.channel_id ∈ default_channel_ids tenant user db ++ [user]))) := by
  have hres : list_notifications tenant none limit user db =
      .ok (((db.notifications.filter (fun n => n.tenant_id = tenant ∧
        n.channel_id ∈ default_channel_ids tenant user db ++ [user])).insertionSort
          sentAtGE).take limit) := by
    unfold list_notifications
    rw [if_neg (by simp [ht])]
    rfl
  refine ⟨_, hres, ?_, ?_, ?_, ?_⟩
  · exact List.length_take_le _ _
  · exact (List.sorted_insertionSort sentAtGE _).sublist (List.take_sublist _ _)
  · intro n hn
    have hsort : n ∈ (db.notifications.filter (fun n => n.tenant_id = tenant ∧
        n.channel_id ∈ default_channel_ids tenant user db ++ [user])).insertionSort
          sentAtGE :=
      List.take_subset _ _ hn
    have hfil := (List.perm_insertionSort sentAtGE _).mem_iff.mp hsort
    rw [List.mem_filter] at hfil
    obtain ⟨hmem, hprop⟩ := hfil
    rw [decide_eq_true_eq] at hprop
    refine ⟨hmem, hprop.1, ?_⟩
    rcases List.mem_append.mp hprop.2 with hch | hch
    · exact Or.inl hch
    · exact Or.inr (List.mem_singleton.mp hch)
  · intro hlen
    have hlen' : ((db.notifications.filter (fun n => n.tenant_id = tenant ∧
        n.channel_id ∈ default_channel_ids tenant user db ++ [user])).insertionSort
          sentAtGE).length ≤ limit := by
      rw [(List.perm_insertionSort sentAtGE _).length_eq]
      exact hlen
    rw [List.take_of_length_le hlen']
    exact List.perm_insertionSort sentAtGE _

/-- Witness for C9: with three notifications at strictly increasing
timestamps and `limit = 2`, exactly the two most recent come back, newest
first; the general theorem applies at the same input. -/
theorem C9_witness :
    list_notifications "t" none 2 "u" dbC9 = .ok [nC9c, nC9b] ∧
    ∃ l, list_notifications "t" none 2 "u" dbC9 = .ok l ∧
      l.length ≤ 2 ∧
      l.Sorted sentAtGE ∧
      (∀ n ∈ l, n ∈ dbC9.notifications ∧ n.tenant_id = "t" ∧
        (n.channel_id ∈ default_channel_ids "t" "u" dbC9 ∨
          n.channel_id = "u")) ∧
      ((dbC9.notifications.filter (fun n => n.tenant_id = "t" ∧
          n.channel_id ∈ default_channel_ids "t" "u" dbC9 ++ ["u"])).length
            ≤ 2 →
        l.Perm (dbC9.notifications.filter (fun n => n.tenant_id = "t" ∧
          n.channel_id ∈ default_channel_ids "t" "u" dbC9 ++ ["u"]))) :=
  ⟨by decide, C9_history "t" "u" 2 dbC9 (by decide) (by decide) (by decide)⟩

end J26
